import Mathlib

/-!
Verification of the Velorize demand-planning core.

The definitions below are shallow embeddings of the computational core of the
backend, translated from
`app/api/v1/endpoints/forecasting.py`, `app/api/v1/endpoints/optimization.py`,
`app/api/v1/endpoints/analytics.py` and `app/api/v1/endpoints/marketing.py`,
together with the `ForecastMethod` enum of `app/models/forecast.py`.

Modelling conventions:
* Python floats are modelled as exact rationals (`ℚ`) where the computation is
  rational, and as reals (`ℝ`) where `math.sqrt` / `np.std` enter.
* `np.mean([])` only occurs behind guards in the source; `mean` below returns
  `0` on `[]` (division by zero in `ℚ`), matching every guarded use.
* A Python exception (`ValueError` from `math.sqrt` on a negative argument,
  `ZeroDivisionError`, `AttributeError` from a missing enum member) is modelled
  by `Option`/`Except`: `none`/`.error` means the call raises.
* The source applies `round(x, 2)` to several results purely for display; the
  embeddings keep the exact values (the rounding moves each value by at most
  1/200, below every tolerance appearing in the statements).
-/

namespace Velorize

/-- `np.mean` over a rational list: sum divided by length (`0` on `[]`). -/
def mean (l : List ℚ) : ℚ := l.sum / (l.length : ℚ)

/-- Population variance, the square of `np.std(·)` (default `ddof=0`). -/
def popVar (l : List ℚ) : ℚ := mean (l.map (fun x => (x - mean l) ^ 2))

/-- Python `data[-periods:]` (note `data[-0:]` is the whole list). -/
def lastSlice (periods : ℕ) (data : List ℚ) : List ℚ :=
  if periods = 0 then data else data.drop (data.length - periods)

/-- `ForecastingEngine.moving_average` (forecasting.py lines 31-36). -/
def moving_average (data : List ℚ) (periods : ℕ) : ℚ :=
  if data.length < periods then (if data.isEmpty then 0 else mean data)
  else mean (lastSlice periods data)

/-- `ForecastingEngine.exponential_smoothing` (forecasting.py lines 38-54):
seeded with the first observation, folds `s ↦ α·v + (1-α)·s` over the rest.
(The source's special case `len(data) == 1` returns `data[0]`, which is the
fold over an empty tail.) -/
def exponential_smoothing (data : List ℚ) (alpha : ℚ) : ℚ :=
  match data with
  | [] => 0
  | x :: rest => rest.foldl (fun s v => alpha * v + (1 - alpha) * s) x

/-- `ForecastingEngine.linear_trend` (forecasting.py lines 56-72): ordinary
least squares of value against index, forecast at index `n + periods_ahead - 1`,
floored at `0`.  `scipy.stats.linregress` computes
`slope = Σ(x-x̄)(y-ȳ) / Σ(x-x̄)²`, `intercept = ȳ - slope·x̄`. -/
def linear_trend (data : List ℚ) (periods_ahead : ℕ) : ℚ :=
  match data with
  | [] => 0
  | [x] => x
  | _ :: _ :: _ =>
    let n : ℚ := data.length
    let xs : List ℚ := (List.range data.length).map (fun i => (i : ℚ))
    let xm := xs.sum / n
    let ym := data.sum / n
    let sxy := ((xs.zip data).map (fun p => (p.1 - xm) * (p.2 - ym))).sum
    let sxx := (xs.map (fun x => (x - xm) ^ 2)).sum
    let slope := sxy / sxx
    let intercept := ym - slope * xm
    max 0 (slope * (n + (periods_ahead : ℚ) - 1) + intercept)

/-- `ForecastingEngine.seasonal_naive` (forecasting.py lines 74-79):
`data[-season_length]` when a full season exists, otherwise the overall mean.
(Python `data[-0]` is `data[0]`, hence the inner conditional.) -/
def seasonal_naive (data : List ℚ) (season_length : ℕ) : ℚ :=
  if data.length < season_length then (if data.isEmpty then 0 else mean data)
  else data.getD (if season_length = 0 then 0 else data.length - season_length) 0

/-- The values of phase `i` of the series: `data[i], data[i+sp], …`
(the inner loop of `sarima_simple`, forecasting.py lines 100-104).
Only evaluated with `i < sp` by the source. -/
def seasonValues (data : List ℚ) (sp : ℕ) (i : ℕ) : List ℚ :=
  ((List.range data.length).filter (fun j => j % sp = i)).map (fun j => data.getD j 0)

/-- `seasonal_avgs[i]`: mean of the phase values, `0` for an empty phase. -/
def seasonalAvg (data : List ℚ) (sp : ℕ) (i : ℕ) : ℚ :=
  let vs := seasonValues data sp i
  if vs.isEmpty then 0 else mean vs

/-- `seasonal_indices[i] = seasonal_avgs[i] / overall_avg` when
`overall_avg > 0`, else `1` (forecasting.py lines 109-112). -/
def seasonalIndex (data : List ℚ) (sp : ℕ) (i : ℕ) : ℚ :=
  if 0 < mean data then seasonalAvg data sp i / mean data else 1

/-- De-seasonalized series: each point divided by its phase's index when that
index is positive (forecasting.py lines 114-119). -/
def deseasonalized (data : List ℚ) (sp : ℕ) : List ℚ :=
  data.enum.map (fun p =>
    if 0 < seasonalIndex data sp (p.1 % sp) then p.2 / seasonalIndex data sp (p.1 % sp)
    else p.2)

/-- The re-seasonalized trend forecast `trend_forecast * seasonal_indices[len % sp]`
(forecasting.py lines 121-126). -/
def seasonalForecast (data : List ℚ) (sp : ℕ) : ℚ :=
  linear_trend (deseasonalized data sp) 1 * seasonalIndex data sp (data.length % sp)

/-- `recent_errors` (forecasting.py lines 129-135): absolute one-step errors of
the previous-season value re-seasonalized at the actual's phase, over the last
`min(len-1, 24)` points, restricted to `i < len - sp`.
`data[-(i+1)]` is `data[len-1-i]`; `data[-(i+1+sp)]` is `data[len-1-i-sp]`. -/
def recentErrors (data : List ℚ) (sp : ℕ) : List ℚ :=
  (List.range (min (data.length - 1) 24)).filterMap (fun i =>
    if i < data.length - sp then
      some |data.getD (data.length - 1 - i) 0 -
            data.getD (data.length - 1 - i - sp) 0 *
              seasonalIndex data sp ((data.length - 1 - i) % sp)|
    else none)

/-- Result dictionary of `ForecastingEngine.sarima_simple`. -/
structure SarimaResult where
  forecast : ℚ
  confidence_lower : ℝ
  confidence_upper : ℝ
  method : String

/-- `ForecastingEngine.sarima_simple` (forecasting.py lines 81-151).  With less
than two full seasons of history it falls back to `linear_trend` with both
confidence bounds the literal `0`; otherwise it returns the re-seasonalized
trend forecast floored at `0` with a `±1.96·std` confidence band from the
recent one-step errors (`±20%` of the point forecast when no errors exist). -/
noncomputable def sarima_simple (data : List ℚ) (sp : ℕ) : SarimaResult :=
  if data.length < sp * 2 then
    { forecast := linear_trend data 1
      confidence_lower := 0
      confidence_upper := 0
      method := "linear_trend_fallback" }
  else
    let sf := seasonalForecast data sp
    let errs := recentErrors data sp
    if errs.isEmpty then
      { forecast := max 0 sf
        confidence_lower := max 0 ((sf : ℝ) * 0.8)
        confidence_upper := (sf : ℝ) * 1.2
        method := "sarima_simple" }
    else
      let s := Real.sqrt (popVar errs)
      { forecast := max 0 sf
        confidence_lower := max 0 (max 0 ((sf : ℝ) - 1.96 * s))
        confidence_upper := (sf : ℝ) + 1.96 * s
        method := "sarima_simple" }

/-! ### Forecast generation (`_generate_forecasts_background`, forecasting.py lines 193-320) -/

/-- The member names of the `ForecastMethod` enum, from `app/models/forecast.py`. -/
def forecastMethodMembers : List String :=
  ["MANUAL", "MOVING_AVERAGE", "EXPONENTIAL_SMOOTHING", "SARIMA",
   "LINEAR_REGRESSION", "PROPHET", "ENSEMBLE"]

/-- The auto-selection policy of the final `else` branch of
`_generate_forecasts_background` (forecasting.py lines 272-286): `sarima_simple`
for at least 24 periods of history, `linear_trend` for at least 12, and
`exponential_smoothing` (α = 0.3) otherwise. -/
noncomputable def autoSelectForecast (data : List ℚ) (period : ℕ) : ℚ :=
  if 24 ≤ data.length then (sarima_simple data 12).forecast
  else if 12 ≤ data.length then linear_trend data period
  else exponential_smoothing data (3 / 10)

/-- The per-period forecast-quantity dispatch of `_generate_forecasts_background`
(forecasting.py lines 244-286).  `method` is the member name of `request.method`
(`none` for "no explicit method").  Each `elif` first resolves the
`ForecastMethod.<NAME>` attribute and only then compares: a name outside
`forecastMethodMembers` raises `AttributeError`, modelled as `.error`. -/
noncomputable def calcForecastQuantity (method : Option String) (data : List ℚ)
    (period : ℕ) : Except String ℚ :=
  if method = some "MOVING_AVERAGE" then .ok (moving_average data 3)
  else if method = some "EXPONENTIAL_SMOOTHING" then .ok (exponential_smoothing data (3 / 10))
  else if "LINEAR_TREND" ∈ forecastMethodMembers then
    (if method = some "LINEAR_TREND" then .ok (linear_trend data period)
     else if "SEASONAL_NAIVE" ∈ forecastMethodMembers then
       (if method = some "SEASONAL_NAIVE" then .ok (seasonal_naive data 12)
        else if method = some "SARIMA" ∨ method = none then .ok (sarima_simple data 12).forecast
        else .ok (autoSelectForecast data period))
     else .error "AttributeError: SEASONAL_NAIVE")
  else .error "AttributeError: LINEAR_TREND"

/-! ### Inventory optimization (`optimization.py`) -/

/-- Result dictionary of `InventoryOptimizer.calculate_eoq`. -/
structure EOQResult where
  eoq : ℝ
  total_cost : ℝ
  ordering_cost : ℝ
  holding_cost : ℝ
  orders_per_year : ℝ

/-- `InventoryOptimizer.calculate_eoq` (optimization.py lines 25-53): all-zero
result when any input is `≤ 0`, otherwise the classic EOQ formulas. -/
noncomputable def calculate_eoq (annual_demand ordering_cost holding_cost : ℝ) : EOQResult :=
  if holding_cost ≤ 0 ∨ ordering_cost ≤ 0 ∨ annual_demand ≤ 0 then
    ⟨0, 0, 0, 0, 0⟩
  else
    let eoq := Real.sqrt ((2 * annual_demand * ordering_cost) / holding_cost)
    let orders_per_year := annual_demand / eoq
    let annual_ordering_cost := orders_per_year * ordering_cost
    let annual_holding_cost := (eoq / 2) * holding_cost
    ⟨eoq, annual_ordering_cost + annual_holding_cost, annual_ordering_cost,
      annual_holding_cost, orders_per_year⟩

/-- The `z_scores` lookup of `calculate_reorder_point` (optimization.py lines
64-71), with `1.65` as the `dict.get` default for unmapped service levels. -/
def zScore (service_level : ℚ) : ℚ :=
  if service_level = 0.90 then 1.28
  else if service_level = 0.95 then 1.65
  else if service_level = 0.97 then 1.88
  else if service_level = 0.99 then 2.33
  else 1.65

/-- Result dictionary of `InventoryOptimizer.calculate_reorder_point`. -/
structure ReorderPointResult where
  reorder_point : ℝ
  lead_time_demand : ℚ
  safety_stock : ℝ
  service_level : ℚ
  z_score : ℚ

/-- `InventoryOptimizer.calculate_reorder_point` (optimization.py lines 55-89).
`lead_time_days` is a Python `int`; `math.sqrt` raises `ValueError` on a
negative argument, modelled as `none`. -/
noncomputable def calculate_reorder_point (lead_time_days : ℤ)
    (daily_demand demand_std : ℚ) (service_level : ℚ) : Option ReorderPointResult :=
  if lead_time_days < 0 then none
  else
    let z := zScore service_level
    let lead_time_demand := daily_demand * lead_time_days
    let safety_stock : ℝ := (z : ℝ) * (demand_std : ℝ) * Real.sqrt (lead_time_days : ℝ)
    some ⟨(lead_time_demand : ℝ) + safety_stock, lead_time_demand, safety_stock,
      service_level, z⟩

/-! ### ABC / XYZ classification (`analytics.py` and the inline versions in
`get_abc_xyz_optimization`, optimization.py lines 487-508) -/

/-- One row of the ABC analysis output (`analytics.py` lines 78-89). -/
structure AbcEntry where
  product_id : ℕ
  total_revenue : ℚ
  cumulative_percentage : ℚ
  label : Char
deriving DecidableEq, Repr

/-- Stable insertion into a descending-by-revenue list: the new row goes in
front of the first row with revenue at most its own (so earlier rows win ties,
matching Python's stable `sorted(..., reverse=True)`). -/
def insertByRevenue (a : ℕ × ℚ) : List (ℕ × ℚ) → List (ℕ × ℚ)
  | [] => [a]
  | b :: t => if b.2 ≤ a.2 then a :: b :: t else b :: insertByRevenue a t

/-- `sorted(sales_data, key=lambda x: x.total_revenue, reverse=True)`. -/
def sortByRevenueDesc (l : List (ℕ × ℚ)) : List (ℕ × ℚ) :=
  l.foldr insertByRevenue []

/-- The ABC rule of `get_abc_analysis` (analytics.py lines 69-74): `A` while
the running cumulative percentage is at most 80, `B` while at most 95,
`C` otherwise. -/
def classifyCumulative (c : ℚ) : Char :=
  if c ≤ 80 then 'A' else if c ≤ 95 then 'B' else 'C'

/-- The classification loop of `get_abc_analysis` (analytics.py lines 59-89):
walks the sorted rows accumulating revenue and labels each row from its
cumulative revenue percentage. -/
def abcEntries (total : ℚ) : ℚ → List (ℕ × ℚ) → List AbcEntry
  | _, [] => []
  | cum, r :: rest =>
    let cum' := cum + r.2
    let cpct := cum' / total * 100
    ⟨r.1, r.2, cpct, classifyCumulative cpct⟩ :: abcEntries total cum' rest

/-- `get_abc_analysis` (analytics.py lines 50-94) on per-product total
revenues.  Empty input returns the empty product list; a zero total revenue
makes `(cumulative_revenue / total_revenue)` raise `ZeroDivisionError`,
modelled as `none`. -/
def get_abc_analysis (sales : List (ℕ × ℚ)) : Option (List AbcEntry) :=
  if sales.isEmpty then some []
  else
    let total := (sales.map Prod.snd).sum
    if total = 0 then none
    else some (abcEntries total 0 (sortByRevenueDesc sales))

/-- The inline ABC classification of `get_abc_xyz_optimization`
(optimization.py lines 487-493): fixed absolute revenue thresholds. -/
def inlineAbcLabel (total_revenue : ℚ) : Char :=
  if 50000 < total_revenue then 'A'
  else if 10000 < total_revenue then 'B'
  else 'C'

/-- The inline XYZ classification of `get_abc_xyz_optimization`
(optimization.py lines 495-508): coefficient of variation from the population
standard deviation (`np.std`, `ddof=0`); `Y` for an empty sample. -/
noncomputable def inlineXyzLabel (daily : List ℚ) : Char :=
  if daily.isEmpty then 'Y'
  else
    let m := mean daily
    let sd := Real.sqrt (popVar daily)
    let cv : ℝ := if 0 < m then sd / (m : ℝ) * 100 else 0
    if cv < 20 then 'X' else if cv ≤ 50 then 'Y' else 'Z'

/-- Sample variance, the square of `np.std(·, ddof=1)`. -/
def sampleVar (l : List ℚ) : ℚ :=
  (l.map (fun x => (x - mean l) ^ 2)).sum / ((l.length : ℚ) - 1)

/-- The XYZ classification of `get_xyz_analysis` (analytics.py lines 153-175):
products with fewer than 2 daily samples are excluded (`none`); otherwise the
coefficient of variation uses the sample standard deviation (`ddof=1`). -/
noncomputable def analyticsXyzLabel (daily : List ℚ) : Option Char :=
  if daily.length < 2 then none
  else
    let m := mean daily
    let sd := Real.sqrt (sampleVar daily)
    let cv : ℝ := if 0 < m then sd / (m : ℝ) * 100 else 0
    some (if cv < 20 then 'X' else if cv ≤ 50 then 'Y' else 'Z')

/-! ### Marketing event impact (`get_marketing_impact_analysis`, marketing.py
lines 285-360) -/

/-- One sales row: day number, quantity sold, net amount. -/
structure Sale where
  day : ℤ
  quantity : ℚ
  revenue : ℚ

/-- Aggregate of `get_period_sales`: total quantity, total revenue and
transaction count over an inclusive day window. -/
structure PeriodMetrics where
  quantity : ℚ
  revenue : ℚ
  transactions : ℕ
deriving DecidableEq, Repr

/-- `get_period_sales(start_dt, end_dt)` over an explicit sales list. -/
def periodMetrics (sales : List Sale) (a b : ℤ) : PeriodMetrics :=
  let rows := sales.filter (fun s => decide (a ≤ s.day) && decide (s.day ≤ b))
  ⟨(rows.map Sale.quantity).sum, (rows.map Sale.revenue).sum, rows.length⟩

/-- One entry of the `impact_analysis` list (marketing.py lines 329-360). -/
structure EventImpactResult where
  preStart : ℤ
  preEnd : ℤ
  postStart : ℤ
  postEnd : ℤ
  pre : PeriodMetrics
  during : PeriodMetrics
  post : PeriodMetrics
  quantity_uplift : ℚ
  revenue_uplift : ℚ
  quantity_uplift_percentage : ℚ
  revenue_uplift_percentage : ℚ
  roi : Option ℚ

/-- The per-event body of `get_marketing_impact_analysis` (marketing.py lines
285-360): windows of the event's duration immediately before and after the
event, uplift = during − pre (percentage `0` on a non-positive baseline), and
ROI when a positive budget is supplied. -/
def get_marketing_impact (sales : List Sale) (eventStart eventEnd : ℤ)
    (budget : Option ℚ) : EventImpactResult :=
  let duration := eventEnd - eventStart + 1
  let preStart := eventStart - duration
  let preEnd := eventStart - 1
  let postStart := eventEnd + 1
  let postEnd := eventEnd + duration
  let pre := periodMetrics sales preStart preEnd
  let dur := periodMetrics sales eventStart eventEnd
  let post := periodMetrics sales postStart postEnd
  let qtyUp := dur.quantity - pre.quantity
  let revUp := dur.revenue - pre.revenue
  let qtyPct := if 0 < pre.quantity then qtyUp / pre.quantity * 100 else 0
  let revPct := if 0 < pre.revenue then revUp / pre.revenue * 100 else 0
  let roi := match budget with
    | some b => if 0 < b then some ((revUp - b) / b * 100) else none
    | none => none
  ⟨preStart, preEnd, postStart, postEnd, pre, dur, post, qtyUp, revUp, qtyPct, revPct, roi⟩

/-! ### Stock recommendations (`get_stock_recommendations` and
`_calculate_priority_score`, optimization.py lines 611-763) -/

/-- `urgency_scores.get(urgency, 10)` of `_calculate_priority_score`. -/
def urgencyScore (urgency : String) : ℤ :=
  if urgency = "critical" then 100
  else if urgency = "urgent" then 50
  else if urgency = "normal" then 10
  else 10

/-- `type_scores.get(recommendation_type, 1)` of `_calculate_priority_score`. -/
def typeScore (t : String) : ℤ :=
  if t = "STOCK_OUT" then 50
  else if t = "CRITICAL_LOW" then 40
  else if t = "REORDER_NOW" then 30
  else if t = "LOW_SUPPLY" then 25
  else if t = "EXPIRY_RISK" then 20
  else if t = "EXCESS_STOCK" then 5
  else if t = "OVERSTOCK" then 3
  else if t = "OPTIMAL" then 1
  else 1

/-- `_calculate_priority_score` (optimization.py lines 749-763). -/
def calculatePriorityScore (urgency t : String) : ℤ :=
  urgencyScore urgency + typeScore t

/-- The recommendation for one product (type, urgency and priority score). -/
structure StockRecommendation where
  rtype : String
  urgency : String
  priority_score : ℤ
deriving DecidableEq, Repr

/-- The per-product decision cascade of `get_stock_recommendations`
(optimization.py lines 635-717).  `daily_demand = recent_demand / 30` when the
trailing 30-day demand is positive, else `0`; `days_of_supply` is
`current_stock / daily_demand`, taken as `+∞` when `daily_demand = 0` (so the
`< 7` test is false and the `> 90` test is true).  `earliest_expiry` is the
earliest expiry day number, compared against `today + 30`. -/
def recommendStock (current_stock reorder_level recent_demand : ℚ)
    (earliest_expiry : Option ℤ) (today : ℤ) : StockRecommendation :=
  let daily_demand := if 0 < recent_demand then recent_demand / 30 else 0
  let lowSupply : Bool :=
    decide (0 < daily_demand) && decide (current_stock / daily_demand < 7)
  let expiryRisk : Bool := match earliest_expiry with
    | some e => decide (e ≤ today + 30)
    | none => false
  let overSupply : Bool :=
    !decide (0 < daily_demand) || decide (90 < current_stock / daily_demand)
  let p : String × String :=
    if current_stock ≤ 0 then ("STOCK_OUT", "critical")
    else if current_stock ≤ reorder_level * 0.5 then ("CRITICAL_LOW", "critical")
    else if current_stock ≤ reorder_level then ("REORDER_NOW", "urgent")
    else if lowSupply then ("LOW_SUPPLY", "urgent")
    else if expiryRisk then ("EXPIRY_RISK", "urgent")
    else if reorder_level * 3 < current_stock then ("EXCESS_STOCK", "normal")
    else if overSupply then ("OVERSTOCK", "normal")
    else ("OPTIMAL", "normal")
  ⟨p.1, p.2, calculatePriorityScore p.2 p.1⟩

/-! ### Helper lemmas -/

theorem mean_nonneg (l : List ℚ) (h : ∀ x ∈ l, 0 ≤ x) : 0 ≤ mean l := by
  unfold mean
  apply div_nonneg (List.sum_nonneg h)
  exact_mod_cast Nat.zero_le _

theorem mean_replicate (n : ℕ) (c : ℚ) (hn : n ≠ 0) : mean (List.replicate n c) = c := by
  unfold mean
  rw [List.sum_replicate, List.length_replicate, nsmul_eq_mul]
  exact mul_div_cancel_left₀ c (by exact_mod_cast hn)

theorem linear_trend_nonneg (data : List ℚ) (k : ℕ) (h : ∀ x ∈ data, 0 ≤ x) :
    0 ≤ linear_trend data k := by
  unfold linear_trend
  match data with
  | [] => exact le_refl 0
  | [x] => exact h x (by simp)
  | a :: b :: t => exact le_max_left 0 _

theorem linear_trend_nonneg_of_two_le (data : List ℚ) (k : ℕ) (h : 2 ≤ data.length) :
    0 ≤ linear_trend data k := by
  unfold linear_trend
  match data with
  | [] => exact le_refl 0
  | [x] => simp at h
  | a :: b :: t => exact le_max_left 0 _

/-! ### C3: degenerate inputs to EOQ and reorder point -/

/-- C3 (amended): `calculate_eoq` returns the all-zero record (and never
raises) whenever any of its three inputs is `≤ 0`, and `calculate_reorder_point`
never raises for any zero or negative daily demand and demand standard
deviation provided the lead time is non-negative.  (As the counterexample
shows, a negative lead time makes `math.sqrt` raise, so the claim's "never
raise" does not extend to negative lead times.) -/
theorem eoq_reorder_degenerate :
    (∀ D S H : ℝ, D ≤ 0 ∨ S ≤ 0 ∨ H ≤ 0 → calculate_eoq D S H = ⟨0, 0, 0, 0, 0⟩) ∧
    (∀ (LT : ℤ) (dd sd sl : ℚ), 0 ≤ LT →
      (calculate_reorder_point LT dd sd sl).isSome) := by
  constructor
  · intro D S H h
    unfold calculate_eoq
    rw [if_pos (by tauto)]
  · intro LT dd sd sl h
    unfold calculate_reorder_point
    rw [if_neg (not_lt.mpr h)]
    rfl

/-- C3 counterexample: the claim as stated is false — with a negative lead
time (a zero-or-negative input combination), `calculate_reorder_point` raises
`ValueError` from `math.sqrt`, modelled as `none`. -/
theorem reorder_point_negative_lead_raises :
    calculate_reorder_point (-1) 0 0 0.95 = none := by
  unfold calculate_reorder_point
  rw [if_pos (by norm_num)]

/-- Witness for `eoq_reorder_degenerate` at concrete degenerate inputs. -/
theorem eoq_reorder_degenerate_witness :
    calculate_eoq 0 (-1) 5 = ⟨0, 0, 0, 0, 0⟩ ∧
    (calculate_reorder_point 0 (-3) (-2) 0.5).isSome := by
  exact ⟨eoq_reorder_degenerate.1 0 (-1) 5 (Or.inl le_rfl),
    eoq_reorder_degenerate.2 0 (-3) (-2) 0.5 le_rfl⟩

/-! ### C4: EOQ formulas and the concrete instance -/

/-- C4: for positive inputs `calculate_eoq` returns
`eoq = sqrt(2·D·S/H)`, `orders_per_year = D/eoq`, annual ordering cost
`= orders_per_year·S`, annual holding cost `= (eoq/2)·H`, and total annual
cost their sum; at `(10000, 100, 20)` it returns `eoq = 316.23 ± 0.01` and
`orders_per_year = 31.62 ± 0.01`. -/
theorem calculate_eoq_correct :
    (∀ D S H : ℝ, 0 < D → 0 < S → 0 < H →
      (calculate_eoq D S H).eoq = Real.sqrt (2 * D * S / H) ∧
      (calculate_eoq D S H).orders_per_year = D / (calculate_eoq D S H).eoq ∧
      (calculate_eoq D S H).ordering_cost = (calculate_eoq D S H).orders_per_year * S ∧
      (calculate_eoq D S H).holding_cost = (calculate_eoq D S H).eoq / 2 * H ∧
      (calculate_eoq D S H).total_cost =
        (calculate_eoq D S H).ordering_cost + (calculate_eoq D S H).holding_cost) ∧
    |(calculate_eoq 10000 100 20).eoq - 316.23| ≤ 0.01 ∧
    |(calculate_eoq 10000 100 20).orders_per_year - 31.62| ≤ 0.01 := by
  have main : ∀ D S H : ℝ, 0 < D → 0 < S → 0 < H →
      calculate_eoq D S H =
        ⟨Real.sqrt (2 * D * S / H),
          D / Real.sqrt (2 * D * S / H) * S + Real.sqrt (2 * D * S / H) / 2 * H,
          D / Real.sqrt (2 * D * S / H) * S,
          Real.sqrt (2 * D * S / H) / 2 * H,
          D / Real.sqrt (2 * D * S / H)⟩ := by
    intro D S H hD hS hH
    unfold calculate_eoq
    rw [if_neg (by push_neg; exact ⟨hH, hS, hD⟩)]
  have harg : (2 * 10000 * 100 / 20 : ℝ) = 100000 := by norm_num
  have hconc := main 10000 100 20 (by norm_num) (by norm_num) (by norm_num)
  rw [harg] at hconc
  have s1 : (316.22 : ℝ) ≤ Real.sqrt 100000 := Real.le_sqrt_of_sq_le (by norm_num)
  have s2 : Real.sqrt 100000 ≤ 316.24 := (Real.sqrt_le_left (by norm_num)).mpr (by norm_num)
  have spos : (0 : ℝ) < Real.sqrt 100000 := lt_of_lt_of_le (by norm_num) s1
  have hq : 10000 / Real.sqrt 100000 * Real.sqrt 100000 = 10000 :=
    div_mul_cancel₀ _ (ne_of_gt spos)
  refine ⟨?_, ?_, ?_⟩
  · intro D S H hD hS hH
    rw [main D S H hD hS hH]
    exact ⟨rfl, rfl, rfl, rfl, rfl⟩
  · rw [hconc]
    rw [abs_le]
    constructor <;> simp only [] <;> linarith
  · rw [hconc]
    rw [abs_le]
    constructor <;> simp only [] <;> nlinarith [hq, s1, s2, spos]

/-- Witness for `calculate_eoq_correct` at a concrete positive input. -/
theorem calculate_eoq_correct_witness :
    (calculate_eoq 8 9 2).eoq = Real.sqrt (2 * 8 * 9 / 2) :=
  (calculate_eoq_correct.1 8 9 2 (by norm_num) (by norm_num) (by norm_num)).1

/-! ### C5: reorder point formulas and the concrete instance -/

/-- C5: for non-negative lead time, daily demand and demand standard deviation,
`calculate_reorder_point` returns `lead_time_demand = daily_demand·lead_time`,
`safety_stock = z·σ·sqrt(lead_time)` with `z` looked up exactly from
`{0.90→1.28, 0.95→1.65, 0.97→1.88, 0.99→2.33}` (default `1.65`), and
`reorder_point = lead_time_demand + safety_stock`; at `(7, 50, 10, 0.95)` it
yields `lead_time_demand = 350`, `safety_stock = 43.66 ± 0.01` and
`reorder_point = 393.66 ± 0.01`. -/
theorem calculate_reorder_point_correct :
    (∀ (LT : ℤ) (dd sd sl : ℚ), 0 ≤ LT → 0 ≤ dd → 0 ≤ sd →
      calculate_reorder_point LT dd sd sl =
        some ⟨((dd * (LT : ℚ) : ℚ) : ℝ) + (zScore sl : ℝ) * (sd : ℝ) * Real.sqrt (LT : ℝ),
          dd * (LT : ℚ),
          (zScore sl : ℝ) * (sd : ℝ) * Real.sqrt (LT : ℝ), sl, zScore sl⟩) ∧
    zScore 0.90 = 1.28 ∧ zScore 0.95 = 1.65 ∧ zScore 0.97 = 1.88 ∧ zScore 0.99 = 2.33 ∧
    (∀ sl : ℚ, sl ≠ 0.90 → sl ≠ 0.95 → sl ≠ 0.97 → sl ≠ 0.99 → zScore sl = 1.65) ∧
    (∃ r, calculate_reorder_point 7 50 10 0.95 = some r ∧
      r.lead_time_demand = 350 ∧
      |r.safety_stock - 43.66| ≤ 0.01 ∧
      |r.reorder_point - 393.66| ≤ 0.01) := by
  have main : ∀ (LT : ℤ) (dd sd sl : ℚ), 0 ≤ LT →
      calculate_reorder_point LT dd sd sl =
        some ⟨((dd * (LT : ℚ) : ℚ) : ℝ) + (zScore sl : ℝ) * (sd : ℝ) * Real.sqrt (LT : ℝ),
          dd * (LT : ℚ),
          (zScore sl : ℝ) * (sd : ℝ) * Real.sqrt (LT : ℝ), sl, zScore sl⟩ := by
    intro LT dd sd sl h
    unfold calculate_reorder_point
    rw [if_neg (not_lt.mpr h)]
  refine ⟨fun LT dd sd sl h _ _ => main LT dd sd sl h,
    by norm_num [zScore], by norm_num [zScore], by norm_num [zScore], by norm_num [zScore], ?_, ?_⟩
  · intro sl h1 h2 h3 h4
    unfold zScore
    rw [if_neg h1, if_neg h2, if_neg h3, if_neg h4]
  · have hc := main 7 50 10 0.95 (by norm_num)
    have hz : zScore 0.95 = 1.65 := by norm_num [zScore]
    refine ⟨_, hc, by norm_num, ?_, ?_⟩ <;>
      simp only [hz] <;>
      rw [abs_le] <;>
      push_cast <;>
      have s1 : (2.6457 : ℝ) ≤ Real.sqrt 7 := Real.le_sqrt_of_sq_le (by norm_num) <;>
      have s2 : Real.sqrt 7 ≤ 2.6458 := (Real.sqrt_le_left (by norm_num)).mpr (by norm_num) <;>
      constructor <;> nlinarith [s1, s2]

/-- Witness for `calculate_reorder_point_correct` at concrete inputs. -/
theorem calculate_reorder_point_correct_witness :
    calculate_reorder_point 4 3 2 0.99 =
      some ⟨((3 * (4 : ℚ) : ℚ) : ℝ) + (zScore 0.99 : ℝ) * (2 : ℝ) * Real.sqrt ((4 : ℤ) : ℝ),
        3 * (4 : ℚ),
        (zScore 0.99 : ℝ) * (2 : ℝ) * Real.sqrt ((4 : ℤ) : ℝ), 0.99, zScore 0.99⟩ := by
  have h := calculate_reorder_point_correct.1 4 3 2 0.99 (by norm_num) (by norm_num) (by norm_num)
  exact_mod_cast h

/-! ### C9: constant series -/

/-- C9: on a constant series of positive length, `moving_average` (any window)
and `exponential_smoothing` (any `α ∈ (0,1]`) both return the constant. -/
theorem constant_series_forecasts (c : ℚ) (n w : ℕ) (alpha : ℚ)
    (hn : 0 < n) (h0 : 0 < alpha) (h1 : alpha ≤ 1) :
    moving_average (List.replicate n c) w = c ∧
    exponential_smoothing (List.replicate n c) alpha = c := by
  constructor
  · unfold moving_average
    by_cases hlt : (List.replicate n c).length < w
    · rw [if_pos hlt]
      rw [if_neg (by simp [List.isEmpty_iff]; omega)]
      exact mean_replicate n c hn.ne'
    · rw [if_neg hlt]
      unfold lastSlice
      by_cases hw : w = 0
      · rw [if_pos hw]
        exact mean_replicate n c hn.ne'
      · rw [if_neg hw]
        rw [List.length_replicate, List.drop_replicate]
        have hwn : w ≤ n := by
          simp only [List.length_replicate] at hlt
          omega
        rw [Nat.sub_sub_self hwn]
        exact mean_replicate w c hw
  · obtain ⟨m, rfl⟩ : ∃ m, n = m + 1 := ⟨n - 1, by omega⟩
    rw [List.replicate_succ]
    unfold exponential_smoothing
    have key : ∀ k, (List.replicate k c).foldl (fun s v => alpha * v + (1 - alpha) * s) c = c := by
      intro k
      induction k with
      | zero => rfl
      | succ k ih =>
        rw [List.replicate_succ, List.foldl_cons]
        rw [show alpha * c + (1 - alpha) * c = c by ring]
        exact ih
    exact key m

/-- Witness for `constant_series_forecasts` at a concrete constant series. -/
theorem constant_series_forecasts_witness :
    moving_average (List.replicate 3 5) 2 = 5 ∧
    exponential_smoothing (List.replicate 3 5) (1 / 2) = 5 :=
  constant_series_forecasts 5 3 2 (1 / 2) (by norm_num) (by norm_num) (by norm_num)

/-! ### C7: recommendation cascade and priority scores -/

/-- C7: the stock recommendation cascade is first-match-wins in the fixed
order, so `stock ≤ 0` yields `STOCK_OUT`/critical (score `150`) regardless of
reorder level, demand or expiry; each of the eight outcomes carries priority
score = urgency weight (critical `100`, urgent `50`, normal `10`) plus the
fixed per-type weight (`STOCK_OUT` `50` down to `OPTIMAL` `1`). -/
theorem stock_recommendation_cascade (cs rl rd : ℚ) (e : Option ℤ) (today : ℤ) :
    (cs ≤ 0 → recommendStock cs rl rd e today = ⟨"STOCK_OUT", "critical", 150⟩) ∧
    ((recommendStock cs rl rd e today).rtype, (recommendStock cs rl rd e today).urgency,
      (recommendStock cs rl rd e today).priority_score) ∈
      [("STOCK_OUT", "critical", 150), ("CRITICAL_LOW", "critical", 140),
       ("REORDER_NOW", "urgent", 80), ("LOW_SUPPLY", "urgent", 75),
       ("EXPIRY_RISK", "urgent", 70), ("EXCESS_STOCK", "normal", 15),
       ("OVERSTOCK", "normal", 13), ("OPTIMAL", "normal", 11)] := by
  constructor
  · intro hc
    simp only [recommendStock]
    rw [if_pos hc]
    decide
  · simp only [recommendStock]
    split_ifs <;> decide

/-- Witness for `stock_recommendation_cascade`: an out-of-stock product with a
near expiry date still classifies as `STOCK_OUT`/critical. -/
theorem stock_recommendation_cascade_witness :
    recommendStock 0 100 60 (some 5) 0 = ⟨"STOCK_OUT", "critical", 150⟩ :=
  (stock_recommendation_cascade 0 100 60 (some 5) 0).1 le_rfl

/-! ### C8: marketing event impact windows, uplift and ROI -/

/-- C8: the pre- and post-event windows have the event's length and lie
immediately before and after it; uplift is the during-window total minus the
pre-window total; uplift percentages are `0` on a zero baseline; and a positive
budget yields `ROI = (revenue_uplift - budget) / budget × 100`. -/
theorem marketing_impact_correct (sales : List Sale) (s e : ℤ) (budget : Option ℚ)
    (hse : s ≤ e) :
    1 ≤ e - s + 1 ∧
    (get_marketing_impact sales s e budget).preStart = s - (e - s + 1) ∧
    (get_marketing_impact sales s e budget).preEnd = s - 1 ∧
    (get_marketing_impact sales s e budget).preEnd -
      (get_marketing_impact sales s e budget).preStart + 1 = e - s + 1 ∧
    (get_marketing_impact sales s e budget).postStart = e + 1 ∧
    (get_marketing_impact sales s e budget).postEnd = e + (e - s + 1) ∧
    (get_marketing_impact sales s e budget).postEnd -
      (get_marketing_impact sales s e budget).postStart + 1 = e - s + 1 ∧
    (get_marketing_impact sales s e budget).pre =
      periodMetrics sales (s - (e - s + 1)) (s - 1) ∧
    (get_marketing_impact sales s e budget).during = periodMetrics sales s e ∧
    (get_marketing_impact sales s e budget).post =
      periodMetrics sales (e + 1) (e + (e - s + 1)) ∧
    (get_marketing_impact sales s e budget).quantity_uplift =
      (get_marketing_impact sales s e budget).during.quantity -
        (get_marketing_impact sales s e budget).pre.quantity ∧
    (get_marketing_impact sales s e budget).revenue_uplift =
      (get_marketing_impact sales s e budget).during.revenue -
        (get_marketing_impact sales s e budget).pre.revenue ∧
    ((get_marketing_impact sales s e budget).pre.quantity = 0 →
      (get_marketing_impact sales s e budget).quantity_uplift_percentage = 0) ∧
    ((get_marketing_impact sales s e budget).pre.revenue = 0 →
      (get_marketing_impact sales s e budget).revenue_uplift_percentage = 0) ∧
    (∀ b : ℚ, budget = some b → 0 < b →
      (get_marketing_impact sales s e budget).roi =
        some (((get_marketing_impact sales s e budget).revenue_uplift - b) / b * 100)) := by
  refine ⟨by omega, rfl, rfl, by simp only [get_marketing_impact]; ring, rfl, rfl,
    by simp only [get_marketing_impact]; ring, rfl, rfl, rfl, rfl, rfl, ?_, ?_, ?_⟩
  · intro h0
    simp only [get_marketing_impact] at h0 ⊢
    rw [if_neg (by rw [h0]; exact lt_irrefl 0)]
  · intro h0
    simp only [get_marketing_impact] at h0 ⊢
    rw [if_neg (by rw [h0]; exact lt_irrefl 0)]
  · intro b hb hpos
    simp only [get_marketing_impact, hb]
    rw [if_pos hpos]

/-- Witness for `marketing_impact_correct` at a concrete event and sales list. -/
theorem marketing_impact_correct_witness :
    (get_marketing_impact [⟨9, 2, 20⟩, ⟨11, 5, 50⟩] 10 12 (some 40)).preEnd = 9 :=
  (marketing_impact_correct [⟨9, 2, 20⟩, ⟨11, 5, 50⟩] 10 12 (some 40) (by norm_num)).2.2.1

/-! ### C6: ABC partition and cumulative-percentage monotonicity -/

theorem insertByRevenue_perm (a : ℕ × ℚ) (l : List (ℕ × ℚ)) :
    (insertByRevenue a l).Perm (a :: l) := by
  induction l with
  | nil => exact List.Perm.refl _
  | cons b t ih =>
    unfold insertByRevenue
    split_ifs
    · exact List.Perm.refl _
    · exact (ih.cons b).trans (List.Perm.swap a b t)

theorem sortByRevenueDesc_perm (l : List (ℕ × ℚ)) : (sortByRevenueDesc l).Perm l := by
  induction l with
  | nil => exact List.Perm.refl _
  | cons a t ih =>
    unfold sortByRevenueDesc at ih ⊢
    rw [List.foldr_cons]
    exact (insertByRevenue_perm a _).trans (ih.cons a)

theorem abcEntries_map_pid (total : ℚ) (l : List (ℕ × ℚ)) : ∀ cum : ℚ,
    (abcEntries total cum l).map AbcEntry.product_id = l.map Prod.fst := by
  induction l with
  | nil => intro cum; rfl
  | cons r t ih => intro cum; simp [abcEntries, ih]

theorem abcEntries_labels (total cum : ℚ) (l : List (ℕ × ℚ)) :
    ∀ x ∈ abcEntries total cum l, x.label = 'A' ∨ x.label = 'B' ∨ x.label = 'C' := by
  induction l generalizing cum with
  | nil => intro x hx; simp [abcEntries] at hx
  | cons r t ih =>
    intro x hx
    simp only [abcEntries, List.mem_cons] at hx
    rcases hx with h | h
    · subst h
      unfold classifyCumulative
      split_ifs <;> simp
    · exact ih _ x h

theorem abcEntries_chain (total : ℚ) (hpos : 0 < total) (l : List (ℕ × ℚ)) :
    ∀ cum : ℚ, (∀ r ∈ l, 0 ≤ r.2) →
      List.Chain' (· ≤ ·) ((abcEntries total cum l).map AbcEntry.cumulative_percentage) := by
  induction l with
  | nil => intro cum _; simp [abcEntries]
  | cons r t ih =>
    intro cum hnn
    have htail := ih (cum + r.2) (fun x hx => hnn x (List.mem_cons_of_mem r hx))
    simp only [abcEntries, List.map_cons]
    rw [List.chain'_cons']
    refine ⟨?_, htail⟩
    intro b hb
    match t with
    | [] => simp [abcEntries] at hb
    | r2 :: t2 =>
      simp only [abcEntries, List.map_cons, List.head?_cons, Option.mem_def,
        Option.some_inj] at hb
      subst hb
      have h2 : 0 ≤ r2.2 := hnn r2 (by simp)
      have hle : cum + r.2 ≤ cum + r.2 + r2.2 := by linarith
      exact mul_le_mul_of_nonneg_right ((div_le_div_right hpos).mpr hle) (by norm_num)

/-- C6 (amended): for every non-empty revenue mapping with non-negative
revenues and positive total revenue, the ABC analysis labels every product with
exactly one of `A`, `B`, `C` (the output products are a permutation of the
input products) and the cumulative revenue percentage is monotonically
non-decreasing across the sorted order.  (The counterexample shows the
monotonicity part of the claim fails once a negative revenue is allowed, and a
zero total revenue raises `ZeroDivisionError`.) -/
theorem abc_partition_monotone (sales : List (ℕ × ℚ))
    (hne : sales ≠ []) (hnn : ∀ r ∈ sales, 0 ≤ r.2)
    (hpos : 0 < (sales.map Prod.snd).sum) :
    ∃ entries, get_abc_analysis sales = some entries ∧
      (entries.map AbcEntry.product_id).Perm (sales.map Prod.fst) ∧
      (∀ x ∈ entries, x.label = 'A' ∨ x.label = 'B' ∨ x.label = 'C') ∧
      List.Chain' (· ≤ ·) (entries.map AbcEntry.cumulative_percentage) := by
  refine ⟨abcEntries ((sales.map Prod.snd).sum) 0 (sortByRevenueDesc sales), ?_, ?_, ?_, ?_⟩
  · unfold get_abc_analysis
    rw [if_neg (by simpa [List.isEmpty_iff] using hne), if_neg (ne_of_gt hpos)]
  · rw [abcEntries_map_pid]
    exact (sortByRevenueDesc_perm sales).map Prod.fst
  · exact abcEntries_labels _ _ _
  · exact abcEntries_chain _ hpos _ 0
      (fun r hr => hnn r ((sortByRevenueDesc_perm sales).mem_iff.mp hr))

/-- C6 counterexample: with a negative revenue the cumulative-revenue
percentage is not monotone — on `{1 ↦ 5, 2 ↦ -1}` the percentages are
`[125, 100]`. -/
theorem abc_cumulative_percentage_not_monotone :
    get_abc_analysis [(1, 5), (2, -1)] =
      some [⟨1, 5, 125, 'C'⟩, ⟨2, -1, 100, 'C'⟩] ∧
    ¬ List.Chain' (· ≤ ·)
        (((get_abc_analysis [(1, 5), (2, -1)]).getD []).map AbcEntry.cumulative_percentage) := by
  have habc : get_abc_analysis [(1, 5), (2, -1)] =
      some [⟨1, 5, 125, 'C'⟩, ⟨2, -1, 100, 'C'⟩] := by
    have hsort : sortByRevenueDesc [(1, 5), (2, -1)] = [(1, 5), (2, -1)] := by decide
    simp only [get_abc_analysis, hsort]
    norm_num [abcEntries, classifyCumulative]
  refine ⟨habc, ?_⟩
  rw [habc]
  simp only [Option.getD_some, List.map_cons, List.map_nil, List.chain'_cons,
    List.chain'_singleton, and_true]
  norm_num

/-- Witness for `abc_partition_monotone` on a concrete two-product mapping. -/
theorem abc_partition_monotone_witness :
    ∃ entries, get_abc_analysis [(1, 5), (2, 3)] = some entries ∧
      (entries.map AbcEntry.product_id).Perm ([(1, 5), (2, 3)].map Prod.fst) ∧
      (∀ x ∈ entries, x.label = 'A' ∨ x.label = 'B' ∨ x.label = 'C') ∧
      List.Chain' (· ≤ ·) (entries.map AbcEntry.cumulative_percentage) :=
  abc_partition_monotone [(1, 5), (2, 3)] (by simp) (by decide) (by norm_num)

/-! ### C2: sarima point forecast and confidence bounds -/

theorem getD_nonneg (l : List ℚ) (h : ∀ x ∈ l, 0 ≤ x) (j : ℕ) : 0 ≤ l.getD j 0 := by
  induction l generalizing j with
  | nil => simp [List.getD]
  | cons a t ih =>
    cases j with
    | zero => simpa using h a (by simp)
    | succ k =>
      simp only [List.getD_cons_succ]
      exact ih (fun x hx => h x (by simp [hx])) k

theorem seasonalAvg_nonneg (data : List ℚ) (sp i : ℕ) (h : ∀ x ∈ data, 0 ≤ x) :
    0 ≤ seasonalAvg data sp i := by
  simp only [seasonalAvg]
  split_ifs
  · exact le_refl 0
  · apply mean_nonneg
    intro y hy
    unfold seasonValues at hy
    simp only [List.mem_map] at hy
    obtain ⟨j, _, rfl⟩ := hy
    exact getD_nonneg data h j

theorem seasonalIndex_nonneg (data : List ℚ) (sp i : ℕ) (h : ∀ x ∈ data, 0 ≤ x) :
    0 ≤ seasonalIndex data sp i := by
  unfold seasonalIndex
  split_ifs with hm
  · exact div_nonneg (seasonalAvg_nonneg data sp i h) (le_of_lt hm)
  · norm_num

theorem seasonalForecast_nonneg (data : List ℚ) (sp : ℕ)
    (h : ∀ x ∈ data, 0 ≤ x) (hlen : 2 ≤ data.length) :
    0 ≤ seasonalForecast data sp := by
  unfold seasonalForecast
  apply mul_nonneg
  · apply linear_trend_nonneg_of_two_le
    unfold deseasonalized
    simpa using hlen
  · exact seasonalIndex_nonneg data sp _ h

/-- C2 (amended): on non-negative history the sarima point forecast is always
non-negative, and in full seasonal mode (history at least two full seasons) the
confidence bounds bracket the point forecast; in the linear-trend fallback the
bounds are the literal constants `0` and `0` (which, as the counterexample
shows, do not bracket a positive fallback forecast — the bracketing part of the
claim fails there). -/
theorem sarima_bounds (data : List ℚ) (sp : ℕ)
    (hnn : ∀ x ∈ data, 0 ≤ x) (hsp : 1 ≤ sp) :
    0 ≤ (sarima_simple data sp).forecast ∧
    (sp * 2 ≤ data.length →
      (sarima_simple data sp).confidence_lower ≤ ((sarima_simple data sp).forecast : ℝ) ∧
      ((sarima_simple data sp).forecast : ℝ) ≤ (sarima_simple data sp).confidence_upper) ∧
    (data.length < sp * 2 →
      (sarima_simple data sp).confidence_lower = 0 ∧
      (sarima_simple data sp).confidence_upper = 0) := by
  by_cases hlen : data.length < sp * 2
  · simp only [sarima_simple, if_pos hlen]
    exact ⟨linear_trend_nonneg data 1 hnn, fun h => absurd h (by omega),
      fun _ => by constructor <;> trivial⟩
  · have h2 : 2 ≤ data.length := by omega
    have hsf : 0 ≤ seasonalForecast data sp := seasonalForecast_nonneg data sp hnn h2
    have hsfR : (0 : ℝ) ≤ ((seasonalForecast data sp : ℚ) : ℝ) := by exact_mod_cast hsf
    have hcast : ((max 0 (seasonalForecast data sp) : ℚ) : ℝ) =
        ((seasonalForecast data sp : ℚ) : ℝ) := by
      rw [max_eq_right hsf]
    simp only [sarima_simple, if_neg hlen]
    by_cases he : (recentErrors data sp).isEmpty
    · rw [if_pos he]
      refine ⟨le_max_left 0 _, fun _ => ⟨?_, ?_⟩, fun h => absurd h (by omega)⟩
      · rw [hcast]
        exact max_le hsfR (by linarith)
      · rw [hcast]
        linarith
    · rw [if_neg he]
      have hs : (0 : ℝ) ≤ Real.sqrt (popVar (recentErrors data sp)) := Real.sqrt_nonneg _
      refine ⟨le_max_left 0 _, fun _ => ⟨?_, ?_⟩, fun h => absurd h (by omega)⟩
      · rw [hcast]
        exact max_le hsfR (max_le hsfR (by linarith))
      · rw [hcast]
        linarith

/-- C2 counterexample: on the short series `[1, 2, 3]` (fallback mode) the
point forecast is `4` but the reported upper confidence bound is `0`, so the
bounds do not bracket the point forecast. -/
theorem sarima_fallback_upper_below_forecast :
    (sarima_simple [1, 2, 3] 12).forecast = 4 ∧
    (sarima_simple [1, 2, 3] 12).confidence_upper <
      ((sarima_simple [1, 2, 3] 12).forecast : ℝ) := by
  have h4 : linear_trend [1, 2, 3] 1 = 4 := by
    norm_num [linear_trend, List.range_succ, List.zip, List.zipWith]
  have hres : sarima_simple [1, 2, 3] 12 = ⟨4, 0, 0, "linear_trend_fallback"⟩ := by
    simp only [sarima_simple]
    rw [if_pos (by norm_num)]
    rw [h4]
  rw [hres]
  norm_num

/-- Witness for `sarima_bounds` on a concrete 24-point series with seasonal
period 12 (full seasonal mode). -/
theorem sarima_bounds_witness :
    0 ≤ (sarima_simple (List.replicate 24 1) 12).forecast ∧
    (12 * 2 ≤ (List.replicate 24 (1 : ℚ)).length →
      (sarima_simple (List.replicate 24 1) 12).confidence_lower ≤
        ((sarima_simple (List.replicate 24 1) 12).forecast : ℝ) ∧
      ((sarima_simple (List.replicate 24 1) 12).forecast : ℝ) ≤
        (sarima_simple (List.replicate 24 1) 12).confidence_upper) ∧
    ((List.replicate 24 (1 : ℚ)).length < 12 * 2 →
      (sarima_simple (List.replicate 24 1) 12).confidence_lower = 0 ∧
      (sarima_simple (List.replicate 24 1) 12).confidence_upper = 0) :=
  sarima_bounds (List.replicate 24 1) 12 (by simp) (by norm_num)

/-! ### C1: auto method selection in forecast generation -/

/-- C1 (code bug): with no explicit method (`none`), the dispatch of
`_generate_forecasts_background` raises
`AttributeError: LINEAR_TREND` for every series — `ForecastMethod` (in
`app/models/forecast.py`) has no `LINEAR_TREND` member, so the `elif` chain
dies before the length-based auto-selection branch and no forecast is ever
stored.  The unreachable branch itself does implement exactly the claimed
24/12-period policy (remaining conjuncts). -/
theorem auto_selection_unreachable (data : List ℚ) (period : ℕ) :
    calcForecastQuantity none data period = Except.error "AttributeError: LINEAR_TREND" ∧
    (24 ≤ data.length → autoSelectForecast data period = (sarima_simple data 12).forecast) ∧
    (12 ≤ data.length → data.length < 24 →
      autoSelectForecast data period = linear_trend data period) ∧
    (data.length < 12 →
      autoSelectForecast data period = exponential_smoothing data (3 / 10)) := by
  refine ⟨?_, ?_, ?_, ?_⟩
  · unfold calcForecastQuantity
    rw [if_neg (by simp), if_neg (by simp), if_neg (by decide)]
  · intro h
    unfold autoSelectForecast
    rw [if_pos h]
  · intro h1 h2
    unfold autoSelectForecast
    rw [if_neg (by omega), if_pos h1]
  · intro h
    unfold autoSelectForecast
    rw [if_neg (by omega), if_neg (by omega)]

/-- Witness for `auto_selection_unreachable` at a concrete short series. -/
theorem auto_selection_unreachable_witness :
    calcForecastQuantity none [1, 2, 3] 1 = Except.error "AttributeError: LINEAR_TREND" ∧
    autoSelectForecast [1, 2, 3] 1 = exponential_smoothing [1, 2, 3] (3 / 10) :=
  ⟨(auto_selection_unreachable [1, 2, 3] 1).1,
    (auto_selection_unreachable [1, 2, 3] 1).2.2.2 (by norm_num)⟩

/-! ### C10: inline classifiers versus the dedicated analytics classifiers -/

/-- C10 counterexample: on the same sales data (one product with revenue
`60000`) the inline ABC classifier of the abc-xyz-optimization endpoint gives
`A` while the dedicated Pareto classifier of the analytics endpoint gives `C`,
so the two do not agree. -/
theorem inline_abc_label_disagrees :
    inlineAbcLabel 60000 = 'A' ∧
    get_abc_analysis [(1, 60000)] = some [⟨1, 60000, 100, 'C'⟩] := by
  constructor
  · norm_num [inlineAbcLabel]
  · have hsort : sortByRevenueDesc [(1, 60000)] = [(1, 60000)] := by decide
    simp only [get_abc_analysis, hsort]
    norm_num [abcEntries, classifyCumulative]

/-- C10 (amended): the inline classifiers are different functions from the
dedicated analytics classifiers and need not agree.  The inline ABC label is
characterized by the absolute thresholds (`A` iff revenue > 50000, `B` iff
10000 < revenue ≤ 50000, `C` otherwise) — not by the cumulative 80/95 rule —
and the classifiers disagree on concrete data: ABC on a sole product with
revenue `70000` (inline `A`, analytics `C`) and XYZ on the daily quantities
`[85, 115]` (inline `X` from the population standard deviation, analytics `Y`
from the sample standard deviation). -/
theorem inline_vs_dedicated_classifiers :
    (∀ rev : ℚ,
      (inlineAbcLabel rev = 'A' ↔ 50000 < rev) ∧
      (inlineAbcLabel rev = 'B' ↔ 10000 < rev ∧ rev ≤ 50000) ∧
      (inlineAbcLabel rev = 'C' ↔ rev ≤ 10000)) ∧
    inlineXyzLabel [85, 115] = 'X' ∧
    analyticsXyzLabel [85, 115] = some 'Y' ∧
    inlineAbcLabel 70000 = 'A' ∧
    get_abc_analysis [(7, 70000)] = some [⟨7, 70000, 100, 'C'⟩] := by
  refine ⟨?_, ?_, ?_, by norm_num [inlineAbcLabel], ?_⟩
  · intro rev
    unfold inlineAbcLabel
    split_ifs with h1 h2
    · exact ⟨iff_of_true rfl h1,
        iff_of_false (by decide) (fun h => absurd h1 (not_lt.mpr h.2)),
        iff_of_false (by decide) (fun h => absurd h1 (not_lt.mpr (h.trans (by norm_num))))⟩
    · exact ⟨iff_of_false (by decide) h1,
        iff_of_true rfl ⟨h2, not_lt.mp h1⟩,
        iff_of_false (by decide) (fun h => absurd h2 (not_lt.mpr h))⟩
    · exact ⟨iff_of_false (by decide) h1,
        iff_of_false (by decide) (fun h => h2 h.1),
        iff_of_true rfl (not_lt.mp h2)⟩
  · have hm : mean [85, 115] = 100 := by norm_num [mean]
    have hv : popVar [85, 115] = 225 := by norm_num [popVar, mean]
    simp only [inlineXyzLabel, List.isEmpty_cons, hm, hv]
    rw [if_neg (by norm_num), if_pos (by norm_num : (0 : ℚ) < 100)]
    have h15 : Real.sqrt ((225 : ℚ) : ℝ) = 15 := by
      rw [show ((225 : ℚ) : ℝ) = (15 : ℝ) ^ 2 by norm_num]
      exact Real.sqrt_sq (by norm_num)
    rw [h15, if_pos (by push_cast; norm_num)]
  · have hm : mean [85, 115] = 100 := by norm_num [mean]
    have hv : sampleVar [85, 115] = 450 := by norm_num [sampleVar, mean]
    simp only [analyticsXyzLabel, hm, hv]
    rw [if_neg (by norm_num), if_pos (by norm_num : (0 : ℚ) < 100)]
    have hge : (20 : ℝ) ≤ Real.sqrt ((450 : ℚ) : ℝ) := by
      push_cast
      exact Real.le_sqrt_of_sq_le (by norm_num)
    have hle : Real.sqrt ((450 : ℚ) : ℝ) ≤ 50 := by
      push_cast
      exact (Real.sqrt_le_left (by norm_num)).mpr (by norm_num)
    have hcancel : Real.sqrt ((450 : ℚ) : ℝ) / ((100 : ℚ) : ℝ) * 100 =
        Real.sqrt ((450 : ℚ) : ℝ) := by
      push_cast
      rw [div_mul_cancel₀ _ (by norm_num : (100 : ℝ) ≠ 0)]
    rw [hcancel, if_neg (not_lt.mpr hge), if_pos hle]
  · have hsort : sortByRevenueDesc [(7, 70000)] = [(7, 70000)] := by decide
    simp only [get_abc_analysis, hsort]
    norm_num [abcEntries, classifyCumulative]

/-- Witness for `inline_vs_dedicated_classifiers`: the characterization applied
at revenue `0`. -/
theorem inline_vs_dedicated_classifiers_witness :
    inlineAbcLabel 0 = 'C' :=
  ((inline_vs_dedicated_classifiers.1 0).2.2).mpr (by norm_num)

end Velorize
